import Mathlib

/-
Shallow embedding of the Baidu geocoder adapters
(src/geopy/geocoders/baiduv1.py and src/geopy/geocoders/baiduv2.py).

The two Python modules are thin adapters over JSON dictionaries.  We model
JSON/Python values with `JVal`, Python exceptions with `PyErr`, and each
method of the two classes as a Lean function translated line by line from
the source.  Floats carry exact rationals: the adapters never do float
arithmetic, only the identity-like `float(...)` conversion, so rounding
never influences any observable outcome studied here.
-/

/-- A JSON / Python value, as produced by decoding a provider response.
Objects are association lists with unique keys (JSON decoding into a
Python dict cannot produce duplicates); lookup takes the first match. -/
inductive JVal where
  | jnull
  | jbool (b : Bool)
  | jint (n : Int)
  | jfloat (q : ℚ)
  | jstr (s : String)
  | jlist (xs : List JVal)
  | jobj (fields : List (String × JVal))

/-- The Python exceptions the two modules can raise or propagate. -/
inductive PyErr where
  | geocoderQueryError (msg : String)
  | keyError (k : String)
  | attributeError
  | typeError
  | valueError
deriving DecidableEq

/-- Whether a `PyErr` is the module's `GeocoderQueryError` (the only
exception the modules raise deliberately). -/
def PyErr.isQueryError : PyErr → Bool
  | PyErr.geocoderQueryError _ => true
  | _ => false

/-- Python truthiness (`bool(v)`) on JSON-decoded values. -/
def pyTruthy : JVal → Bool
  | JVal.jnull => false
  | JVal.jbool b => b
  | JVal.jint n => n != 0
  | JVal.jfloat q => decide (q ≠ 0)
  | JVal.jstr s => s != ""
  | JVal.jlist xs => !xs.isEmpty
  | JVal.jobj fs => !fs.isEmpty

/-- Python truthiness on a plain string argument (`if city:`). -/
def pyStrTruthy (s : String) : Bool := s != ""

/-- Python `v or None`. -/
def pyOrNone (v : JVal) : JVal := if pyTruthy v then v else JVal.jnull

/-- Python `len(v)`: defined on strings, lists and dicts, `TypeError`
otherwise. -/
def pyLen : JVal → Except PyErr Nat
  | JVal.jstr s => Except.ok s.length
  | JVal.jlist xs => Except.ok xs.length
  | JVal.jobj fs => Except.ok fs.length
  | _ => Except.error PyErr.typeError

/-- Python `d.get(k, default)`: `AttributeError` when the receiver is not a
dict (only dicts in these modules have a `get` method). -/
def pyGet : JVal → String → JVal → Except PyErr JVal
  | JVal.jobj fs, k, d => Except.ok ((fs.lookup k).getD d)
  | _, _, _ => Except.error PyErr.attributeError

/-- Python `d[k]` with a string key: `KeyError` when the key is missing,
`TypeError` when the receiver does not support string indexing. -/
def pyIndex : JVal → String → Except PyErr JVal
  | JVal.jobj fs, k =>
      match fs.lookup k with
      | some w => Except.ok w
      | none => Except.error (PyErr.keyError k)
  | _, _ => Except.error PyErr.typeError

mutual

/-- Python `==` on JSON-decoded values: numeric types (bool included)
compare by value across types, strings by content, lists elementwise,
dicts as mappings (sound here because keys are unique), and any other
cross-type comparison is `False`. -/
def pyEq : JVal → JVal → Bool
  | JVal.jnull, JVal.jnull => true
  | JVal.jbool a, JVal.jbool b => a == b
  | JVal.jbool a, JVal.jint b => (if a then (1 : Int) else 0) == b
  | JVal.jbool a, JVal.jfloat b => decide ((if a then (1 : ℚ) else 0) = b)
  | JVal.jint a, JVal.jbool b => a == (if b then (1 : Int) else 0)
  | JVal.jint a, JVal.jint b => a == b
  | JVal.jint a, JVal.jfloat b => decide ((a : ℚ) = b)
  | JVal.jfloat a, JVal.jbool b => decide (a = (if b then (1 : ℚ) else 0))
  | JVal.jfloat a, JVal.jint b => decide (a = (b : ℚ))
  | JVal.jfloat a, JVal.jfloat b => decide (a = b)
  | JVal.jstr a, JVal.jstr b => a == b
  | JVal.jlist a, JVal.jlist b => pyEqList a b
  | JVal.jobj a, JVal.jobj b => a.length == b.length && pyEqFields a b
  | _, _ => false

/-- Elementwise Python `==` on lists. -/
def pyEqList : List JVal → List JVal → Bool
  | [], [] => true
  | x :: xs, y :: ys => pyEq x y && pyEqList xs ys
  | _, _ => false

/-- Every key of the first dict maps to a `pyEq`-equal value in the
second. -/
def pyEqFields : List (String × JVal) → List (String × JVal) → Bool
  | [], _ => true
  | (k, v) :: rest, b =>
      (match b.lookup k with
       | some w => pyEq v w
       | none => false) && pyEqFields rest b
end

/-- True digits-only check used by the decimal-literal model of
Python `float(str)`. -/
def allDigits (cs : List Char) : Bool := cs.all Char.isDigit

/-- Numeric value of a digit list. -/
def digitsVal (cs : List Char) : Nat :=
  cs.foldl (fun a c => a * 10 + (c.toNat - 48)) 0

/-- Python `float(s)` on a string, modelled for plain decimal literals
(optional sign, digits, optional fractional part).  The source never
produces other forms on the paths studied here; unparsed forms raise
`ValueError`, as `float` does. -/
def pyFloatOfString (s : String) : Option ℚ :=
  let sign : ℚ := if s.startsWith "-" then -1 else 1
  let body : String :=
    if s.startsWith "-" || s.startsWith "+" then s.drop 1 else s
  match body.splitOn "." with
  | [i] =>
      let ci := i.toList
      if !ci.isEmpty && allDigits ci then some (sign * (digitsVal ci : ℚ))
      else none
  | [i, f] =>
      let ci := i.toList
      let cf := f.toList
      if (!ci.isEmpty || !cf.isEmpty) && allDigits ci && allDigits cf then
        some (sign * ((digitsVal ci : ℚ) + (digitsVal cf : ℚ) / ((10 : ℚ) ^ cf.length)))
      else none
  | _ => none

/-- Python `float(v)`: numeric and boolean values convert exactly,
strings through the decimal-literal model, everything else raises
`TypeError`. -/
def pyFloat : JVal → Except PyErr JVal
  | JVal.jbool b => Except.ok (JVal.jfloat (if b then 1 else 0))
  | JVal.jint n => Except.ok (JVal.jfloat (n : ℚ))
  | JVal.jfloat q => Except.ok (JVal.jfloat q)
  | JVal.jstr s =>
      match pyFloatOfString s with
      | some q => Except.ok (JVal.jfloat q)
      | none => Except.error PyErr.valueError
  | _ => Except.error PyErr.typeError

/-- Whether a value is a Python float. -/
def JVal.isFloat : JVal → Bool
  | JVal.jfloat _ => true
  | _ => false

/-- Whether a value is Python `None`. -/
def JVal.isNull : JVal → Bool
  | JVal.jnull => true
  | _ => false

/-- Modelled from the spec: `geopy.location.Location` lives outside the two
source files; the spec describes a Result as a normalized triple of
(display label, coordinate pair, raw provider payload).  The coordinate
pair components are kept as the values the parser passed in (`jfloat`,
raw value, or `jnull` for Python `None`). -/
structure Location where
  address : JVal
  latitude : JVal
  longitude : JVal
  raw : JVal

/-- The coordinate-extraction tail of `parse_result`, textually identical
in both source versions: the two `... or None` lines, the conditional
`float` conversions, and the `Location` construction. -/
def coordFinish (address latRaw lngRaw raw : JVal) :
    Except PyErr (Option Location) :=
  if pyTruthy (pyOrNone latRaw) && pyTruthy (pyOrNone lngRaw) then
    match pyFloat (pyOrNone latRaw) with
    | Except.error e => Except.error e
    | Except.ok latF =>
      match pyFloat (pyOrNone lngRaw) with
      | Except.error e => Except.error e
      | Except.ok lngF =>
        Except.ok (some { address := address, latitude := latF,
                          longitude := lngF, raw := raw })
  else
    Except.ok (some { address := address, latitude := pyOrNone latRaw,
                      longitude := pyOrNone lngRaw, raw := raw })

/-- Configuration of a `BaiduV1` instance, immutable after `__init__`.
Python's `self.format_string % query` template application is modelled as
a function, since the `%` formatting primitive is outside the source
files (the spec calls it "template applied to query"). -/
structure BaiduV1 where
  key : String
  format_string : String → String
  scheme : String
  timeout : Option Nat
  proxies : Option (List (String × String))

/-- `self.api`, computed in `__init__` from the scheme.  The configuration
is never mutated, so deriving it is equivalent to storing it. -/
def BaiduV1.api (g : BaiduV1) : String :=
  g.scheme ++ "://api.map.baidu.com/geocoder"

/-- `BaiduV1._check_status`. -/
def BaiduV1.check_status (status : JVal) : Except PyErr Unit :=
  if pyEq status (JVal.jstr "OK") then Except.ok ()
  else if pyEq status (JVal.jint 1) then
    Except.error (PyErr.geocoderQueryError "Server internal error.")
  else if pyEq status (JVal.jstr "INVILID_KEY") then
    Except.error (PyErr.geocoderQueryError "Invalid key.")
  else if pyEq status (JVal.jstr "INVALID_PARAMETERS") then
    Except.error (PyErr.geocoderQueryError "INVALID PARAMETERS.")
  else Except.error (PyErr.geocoderQueryError "Unknown error.")

/-- The inner `parse_result` of `BaiduV1._parse_json`.  Note that the
source applies it to the whole response (`parse_result(response)`) and
re-extracts `result['result']` inside. -/
def BaiduV1.parse_result (result0 : JVal) : Except PyErr (Option Location) :=
  match pyIndex result0 "result" with
  | Except.error e => Except.error e
  | Except.ok result =>
    match pyGet result "formatted_address" JVal.jnull with
    | Except.error e => Except.error e
    | Except.ok address =>
      match pyIndex result "location" with
      | Except.error e => Except.error e
      | Except.ok loc1 =>
        match pyIndex loc1 "lat" with
        | Except.error e => Except.error e
        | Except.ok latRaw =>
          match pyIndex result "location" with
          | Except.error e => Except.error e
          | Except.ok loc2 =>
            match pyIndex loc2 "lng" with
            | Except.error e => Except.error e
            | Except.ok lngRaw => coordFinish address latRaw lngRaw result

/-- `BaiduV1._parse_json`.  The `exactly_one` parameter is accepted and,
as in the source, never read. -/
def BaiduV1.parse_json (response : JVal) (exactly_one : Bool) :
    Except PyErr (Option Location) :=
  match pyGet response "result" (JVal.jlist []) with
  | Except.error e => Except.error e
  | Except.ok result =>
    match pyLen result with
    | Except.error e => Except.error e
    | Except.ok n =>
      if n = 0 then
        match pyGet response "status" JVal.jnull with
        | Except.error e => Except.error e
        | Except.ok st =>
          match BaiduV1.check_status st with
          | Except.error e => Except.error e
          | Except.ok _ => Except.ok none
      else
        BaiduV1.parse_result response

/-- Configuration of a `BaiduV2` instance, immutable after `__init__`. -/
structure BaiduV2 where
  ak : String
  format_string : String → String
  scheme : String
  timeout : Option Nat
  proxies : Option (List (String × String))

/-- `self.api` of `BaiduV2`, computed in `__init__` from the scheme. -/
def BaiduV2.api (g : BaiduV2) : String :=
  g.scheme ++ "://api.map.baidu.com/geocoder/v2/"

/-- `BaiduV2._check_status`. -/
def BaiduV2.check_status (status : JVal) : Except PyErr Unit :=
  if pyEq status (JVal.jint 0) then Except.ok ()
  else if pyEq status (JVal.jint 1) then
    Except.error (PyErr.geocoderQueryError "Server internal error.")
  else if pyEq status (JVal.jint 2) then
    Except.error (PyErr.geocoderQueryError "Invalid request.")
  else if pyEq status (JVal.jint 3) then
    Except.error (PyErr.geocoderQueryError "Permission validation failed.")
  else if pyEq status (JVal.jint 4) then
    Except.error (PyErr.geocoderQueryError "Quota validation failed.")
  else if pyEq status (JVal.jint 5) then
    Except.error (PyErr.geocoderQueryError "Invalid ak.")
  else if pyEq status (JVal.jint 101) then
    Except.error (PyErr.geocoderQueryError "Service disabled.")
  else if pyEq status (JVal.jint 102) then
    Except.error (PyErr.geocoderQueryError
      "Failed to pass the whitelist or wrong security code.")
  else Except.error (PyErr.geocoderQueryError "Unknown error.")

/-- The inner `parse_result` of `BaiduV2._parse_json`.  As in the source,
it reads `result['level']` and `result['location']` directly from its
argument — which `_parse_json` passes as the whole response. -/
def BaiduV2.parse_result (result : JVal) : Except PyErr (Option Location) :=
  match pyIndex result "level" with
  | Except.error e => Except.error e
  | Except.ok level =>
    match pyIndex result "location" with
    | Except.error e => Except.error e
    | Except.ok loc1 =>
      match pyIndex loc1 "lat" with
      | Except.error e => Except.error e
      | Except.ok latRaw =>
        match pyIndex result "location" with
        | Except.error e => Except.error e
        | Except.ok loc2 =>
          match pyIndex loc2 "lng" with
          | Except.error e => Except.error e
          | Except.ok lngRaw => coordFinish level latRaw lngRaw result

/-- `BaiduV2._parse_json`.  The `exactly_one` parameter is accepted and,
as in the source, never read. -/
def BaiduV2.parse_json (response : JVal) (exactly_one : Bool) :
    Except PyErr (Option Location) :=
  match pyGet response "results" (JVal.jlist []) with
  | Except.error e => Except.error e
  | Except.ok result =>
    match pyLen result with
    | Except.error e => Except.error e
    | Except.ok n =>
      if n = 0 then
        match pyGet response "status" JVal.jnull with
        | Except.error e => Except.error e
        | Except.ok st =>
          match BaiduV2.check_status st with
          | Except.error e => Except.error e
          | Except.ok _ => Except.ok none
      else
        BaiduV2.parse_result response

/-- Parameter dict built by `BaiduV1.geocode` (insertion order), including
`city` only when it is passed and truthy (`if city:`). -/
def BaiduV1.geocodeParams (g : BaiduV1) (query : String)
    (city : Option String) : List (String × String) :=
  let params := [("address", g.format_string query), ("output", "json"),
                 ("key", g.key)]
  match city with
  | some c => if pyStrTruthy c then params ++ [("city", c)] else params
  | none => params

/-- The URL built by `BaiduV1.geocode`:
`"?".join((self.api, urlencode(params)))`.  The `urlencode` primitive is
an external collaborator (spec section 1), so it is an explicit function
argument. -/
def BaiduV1.geocodeUrl (enc : List (String × String) → String) (g : BaiduV1)
    (query : String) (city : Option String) : String :=
  g.api ++ "?" ++ enc (g.geocodeParams query city)

/-- `BaiduV1.geocode`: builds the URL, calls the transport
(`_call_geocoder`, an external collaborator), and parses the response. -/
def BaiduV1.geocode (g : BaiduV1) (enc : List (String × String) → String)
    (transport : String → Option Nat → Except PyErr JVal) (query : String)
    (city : Option String) (exactly_one : Bool) (timeout : Option Nat) :
    Except PyErr (Option Location) :=
  match transport (g.geocodeUrl enc query city) timeout with
  | Except.error e => Except.error e
  | Except.ok resp => BaiduV1.parse_json resp exactly_one

/-- Parameter dict built by `BaiduV1.reverse` (insertion order).  The
point-coercion utility `_coerce_point_to_string` is an external
collaborator (spec section 1), so it is an explicit function argument
applied to the point-like query. -/
def BaiduV1.reverseParams (g : BaiduV1) {α : Type} (coerce : α → String)
    (query : α) : List (String × String) :=
  [("location", coerce query), ("output", "json"), ("key", g.key)]

/-- The URL built by `BaiduV1.reverse`: `"%s?%s" % (self.api,
urlencode(params))`. -/
def BaiduV1.reverseUrl (enc : List (String × String) → String) (g : BaiduV1)
    {α : Type} (coerce : α → String) (query : α) : String :=
  g.api ++ "?" ++ enc (g.reverseParams coerce query)

/-- `BaiduV1.reverse`. -/
def BaiduV1.reverse (g : BaiduV1) (enc : List (String × String) → String)
    (transport : String → Option Nat → Except PyErr JVal) {α : Type}
    (coerce : α → String) (query : α) (exactly_one : Bool)
    (timeout : Option Nat) : Except PyErr (Option Location) :=
  match transport (g.reverseUrl enc coerce query) timeout with
  | Except.error e => Except.error e
  | Except.ok resp => BaiduV1.parse_json resp exactly_one

/-- Parameter dict built by `BaiduV2.geocode` (insertion order); the
credential parameter is named `ak`. -/
def BaiduV2.geocodeParams (g : BaiduV2) (query : String)
    (city : Option String) : List (String × String) :=
  let params := [("address", g.format_string query), ("output", "json"),
                 ("ak", g.ak)]
  match city with
  | some c => if pyStrTruthy c then params ++ [("city", c)] else params
  | none => params

/-- The URL built by `BaiduV2.geocode`. -/
def BaiduV2.geocodeUrl (enc : List (String × String) → String) (g : BaiduV2)
    (query : String) (city : Option String) : String :=
  g.api ++ "?" ++ enc (g.geocodeParams query city)

/-- `BaiduV2.geocode`. -/
def BaiduV2.geocode (g : BaiduV2) (enc : List (String × String) → String)
    (transport : String → Option Nat → Except PyErr JVal) (query : String)
    (city : Option String) (exactly_one : Bool) (timeout : Option Nat) :
    Except PyErr (Option Location) :=
  match transport (g.geocodeUrl enc query city) timeout with
  | Except.error e => Except.error e
  | Except.ok resp => BaiduV2.parse_json resp exactly_one

/-- Parameter dict built by `BaiduV2.reverse` (insertion order), with the
explicit `coordtype` argument. -/
def BaiduV2.reverseParams (g : BaiduV2) {α : Type} (coerce : α → String)
    (query : α) (coordtype : String) : List (String × String) :=
  [("location", coerce query), ("coordtype", coordtype), ("output", "json"),
   ("ak", g.ak)]

/-- `BaiduV2.reverse`'s parameters when the caller does not supply
`coordtype`: the source signature defaults it to `'bd09ll'`. -/
def BaiduV2.reverseParamsDefault (g : BaiduV2) {α : Type}
    (coerce : α → String) (query : α) : List (String × String) :=
  g.reverseParams coerce query "bd09ll"

/-- The URL built by `BaiduV2.reverse`. -/
def BaiduV2.reverseUrl (enc : List (String × String) → String) (g : BaiduV2)
    {α : Type} (coerce : α → String) (query : α) (coordtype : String) :
    String :=
  g.api ++ "?" ++ enc (g.reverseParams coerce query coordtype)

/-- `BaiduV2.reverse`. -/
def BaiduV2.reverse (g : BaiduV2) (enc : List (String × String) → String)
    (transport : String → Option Nat → Except PyErr JVal) {α : Type}
    (coerce : α → String) (query : α) (coordtype : String)
    (exactly_one : Bool) (timeout : Option Nat) :
    Except PyErr (Option Location) :=
  match transport (g.reverseUrl enc coerce query coordtype) timeout with
  | Except.error e => Except.error e
  | Except.ok resp => BaiduV2.parse_json resp exactly_one

/-- The shape of the coordinate pair actually produced by the parsers:
both axes converted to float, both `None`, or — when exactly one raw axis
is truthy — mixed, the truthy axis keeping its raw value. -/
def coordPairOk (loc : Location) : Prop :=
  (loc.latitude.isFloat = true ∧ loc.longitude.isFloat = true) ∨
  (loc.latitude = JVal.jnull ∧ loc.longitude = JVal.jnull) ∨
  (loc.latitude = JVal.jnull ∧ pyTruthy loc.longitude = true) ∨
  (pyTruthy loc.latitude = true ∧ loc.longitude = JVal.jnull)

/-- The coordinate-pair invariant claimed by the spec: fully present
(both axes floats) or fully absent (both `None`). -/
def coordPairClaimed (loc : Location) : Bool :=
  (loc.latitude.isFloat && loc.longitude.isFloat) ||
  (loc.latitude.isNull && loc.longitude.isNull)

/-- A sample V1 configuration used by concrete instantiations. -/
def sampleV1 : BaiduV1 where
  key := "k"
  format_string := fun s => s
  scheme := "http"
  timeout := none
  proxies := none

/-- A V1 configuration agreeing with `sampleV1` on credential, template
and scheme but differing in timeout and proxies. -/
def sampleV1b : BaiduV1 where
  key := "k"
  format_string := fun s => s
  scheme := "http"
  timeout := some 9
  proxies := some [("https", "192.0.2.0")]

/-- A sample V2 configuration used by concrete instantiations. -/
def sampleV2 : BaiduV2 where
  ak := "a"
  format_string := fun s => s
  scheme := "http"
  timeout := none
  proxies := none

/-- A V2 configuration agreeing with `sampleV2` on credential, template
and scheme but differing in timeout and proxies. -/
def sampleV2b : BaiduV2 where
  ak := "a"
  format_string := fun s => s
  scheme := "http"
  timeout := some 9
  proxies := some [("https", "192.0.2.0")]

/-- A sample URL-encoding collaborator used by concrete instantiations. -/
def sampleEnc (ps : List (String × String)) : String :=
  String.intercalate "&" (ps.map (fun p => p.1 ++ "=" ++ p.2))

/-- Truthiness is unchanged by `v or None`. -/
theorem pyTruthy_pyOrNone (v : JVal) : pyTruthy (pyOrNone v) = pyTruthy v := by
  unfold pyOrNone
  by_cases h : pyTruthy v = true
  · rw [if_pos h]
  · rw [if_neg h]
    rw [Bool.not_eq_true] at h
    rw [h]
    rfl

/-- A falsy value becomes `None` under `v or None`. -/
theorem pyOrNone_falsy (v : JVal) (h : pyTruthy v = false) :
    pyOrNone v = JVal.jnull := by
  unfold pyOrNone
  rw [h]
  rfl

/-- A truthy value survives `v or None`. -/
theorem pyOrNone_truthy (v : JVal) (h : pyTruthy v = true) : pyOrNone v = v := by
  unfold pyOrNone
  rw [h]
  rfl

/-- A successful `float(...)` always yields a float value. -/
theorem pyFloat_ok_isFloat (v w : JVal) (h : pyFloat v = Except.ok w) :
    w.isFloat = true := by
  cases v with
  | jnull => exact Except.noConfusion h
  | jbool b =>
      injection h with h
      subst h
      rfl
  | jint n =>
      injection h with h
      subst h
      rfl
  | jfloat q =>
      injection h with h
      subst h
      rfl
  | jstr s =>
      simp only [pyFloat] at h
      cases hp : pyFloatOfString s with
      | some q =>
          rw [hp] at h
          injection h with h
          subst h
          rfl
      | none =>
          rw [hp] at h
          exact Except.noConfusion h
  | jlist xs => exact Except.noConfusion h
  | jobj fs => exact Except.noConfusion h

/-- Any `Location` produced by the shared coordinate tail satisfies the
both-floats / both-`None` / one-sided shape. -/
theorem coordFinish_shape (address latRaw lngRaw raw : JVal) (loc : Location)
    (h : coordFinish address latRaw lngRaw raw = Except.ok (some loc)) :
    coordPairOk loc := by
  unfold coordFinish at h
  by_cases hb : (pyTruthy (pyOrNone latRaw) && pyTruthy (pyOrNone lngRaw)) = true
  · rw [if_pos hb] at h
    cases h1 : pyFloat (pyOrNone latRaw) with
    | error e =>
        rw [h1] at h
        exact Except.noConfusion h
    | ok latF =>
        rw [h1] at h
        cases h2 : pyFloat (pyOrNone lngRaw) with
        | error e =>
            rw [h2] at h
            exact Except.noConfusion h
        | ok lngF =>
            rw [h2] at h
            injection h with h
            injection h with h
            subst h
            exact Or.inl ⟨pyFloat_ok_isFloat _ _ h1, pyFloat_ok_isFloat _ _ h2⟩
  · rw [if_neg hb] at h
    injection h with h
    injection h with h
    subst h
    rw [Bool.and_eq_true, not_and] at hb
    by_cases ha : pyTruthy latRaw = true
    · by_cases hc : pyTruthy lngRaw = true
      · exact absurd (by rw [pyTruthy_pyOrNone]; exact hc)
          (hb (by rw [pyTruthy_pyOrNone]; exact ha))
      · rw [Bool.not_eq_true] at hc
        refine Or.inr (Or.inr (Or.inr ⟨?_, ?_⟩))
        · show pyTruthy (pyOrNone latRaw) = true
          rw [pyTruthy_pyOrNone]
          exact ha
        · show pyOrNone lngRaw = JVal.jnull
          exact pyOrNone_falsy _ hc
    · rw [Bool.not_eq_true] at ha
      by_cases hc : pyTruthy lngRaw = true
      · refine Or.inr (Or.inr (Or.inl ⟨?_, ?_⟩))
        · show pyOrNone latRaw = JVal.jnull
          exact pyOrNone_falsy _ ha
        · show pyTruthy (pyOrNone lngRaw) = true
          rw [pyTruthy_pyOrNone]
          exact hc
      · rw [Bool.not_eq_true] at hc
        exact Or.inr (Or.inl ⟨pyOrNone_falsy _ ha, pyOrNone_falsy _ hc⟩)

/-- Any `Location` produced by `BaiduV1.parse_result` satisfies the
coordinate-pair shape. -/
theorem parse_result_coord_shape_v1 (r : JVal) (loc : Location)
    (h : BaiduV1.parse_result r = Except.ok (some loc)) : coordPairOk loc := by
  unfold BaiduV1.parse_result at h
  repeat' (first
    | exact coordFinish_shape _ _ _ _ _ h
    | exact Except.noConfusion h
    | split at h)

/-- Any `Location` produced by `BaiduV2.parse_result` satisfies the
coordinate-pair shape. -/
theorem parse_result_coord_shape_v2 (r : JVal) (loc : Location)
    (h : BaiduV2.parse_result r = Except.ok (some loc)) : coordPairOk loc := by
  unfold BaiduV2.parse_result at h
  repeat' (first
    | exact coordFinish_shape _ _ _ _ _ h
    | exact Except.noConfusion h
    | split at h)

/-- Any `Location` produced by `BaiduV1._parse_json` satisfies the
coordinate-pair shape. -/
theorem parse_json_coord_shape_v1 (resp : JVal) (b : Bool)
    (loc : Location) (h : BaiduV1.parse_json resp b = Except.ok (some loc)) :
    coordPairOk loc := by
  unfold BaiduV1.parse_json at h
  repeat' (first
    | exact parse_result_coord_shape_v1 _ _ h
    | exact Except.noConfusion h
    | exact Option.noConfusion (Except.ok.inj h)
    | split at h)

/-- Any `Location` produced by `BaiduV2._parse_json` satisfies the
coordinate-pair shape. -/
theorem parse_json_coord_shape_v2 (resp : JVal) (b : Bool)
    (loc : Location) (h : BaiduV2.parse_json resp b = Except.ok (some loc)) :
    coordPairOk loc := by
  unfold BaiduV2.parse_json at h
  repeat' (first
    | exact parse_result_coord_shape_v2 _ _ h
    | exact Except.noConfusion h
    | exact Option.noConfusion (Except.ok.inj h)
    | split at h)

/-- C1 counterexample: the V1 payload
`{"status": "OK", "result": {"location": {"lat": 39, "lng": 0}}}` is
accepted, yet the returned Result has a mixed coordinate pair — longitude
is `None` while latitude is kept as the raw integer `39`, not converted to
float — refuting the fully-present-or-fully-absent claim. -/
theorem baidu_coord_pair_mixed_counterexample :
  BaiduV1.parse_json (JVal.jobj [("status", JVal.jstr "OK"),
      ("result", JVal.jobj [("location",
        JVal.jobj [("lat", JVal.jint 39), ("lng", JVal.jint 0)])])]) true
    = Except.ok (some { address := JVal.jnull, latitude := JVal.jint 39,
                        longitude := JVal.jnull,
                        raw := JVal.jobj [("location",
                          JVal.jobj [("lat", JVal.jint 39),
                                     ("lng", JVal.jint 0)])] }) ∧
  coordPairClaimed { address := JVal.jnull, latitude := JVal.jint 39,
                     longitude := JVal.jnull,
                     raw := JVal.jobj [("location",
                       JVal.jobj [("lat", JVal.jint 39),
                                  ("lng", JVal.jint 0)])] } = false :=
⟨rfl, rfl⟩

/-- C1 (amended): every `Location` returned by `_parse_json` (either
version) on an accepted non-empty payload has a coordinate pair that is
both-floats, both-`None`, or — when exactly one raw axis is truthy —
mixed, with the falsy axis `None` and the truthy axis keeping its raw
unconverted value. -/
theorem baidu_parse_json_coord_pair_shape :
  ∀ (resp : JVal) (b : Bool) (loc : Location),
    (BaiduV1.parse_json resp b = Except.ok (some loc) → coordPairOk loc) ∧
    (BaiduV2.parse_json resp b = Except.ok (some loc) → coordPairOk loc) :=
fun resp b loc =>
  ⟨parse_json_coord_shape_v1 resp b loc,
   parse_json_coord_shape_v2 resp b loc⟩

/-- C1 witness: concrete accepted payloads for both versions whose parsed
Results satisfy the amended coordinate-pair shape. -/
theorem baidu_parse_json_coord_pair_shape_witness :
  (BaiduV1.parse_json (JVal.jobj [("status", JVal.jstr "OK"),
      ("result", JVal.jobj [("location",
        JVal.jobj [("lat", JVal.jfloat 39), ("lng", JVal.jfloat 116)])])]) true
    = Except.ok (some { address := JVal.jnull, latitude := JVal.jfloat 39,
                        longitude := JVal.jfloat 116,
                        raw := JVal.jobj [("location",
                          JVal.jobj [("lat", JVal.jfloat 39),
                                     ("lng", JVal.jfloat 116)])] }) ∧
   coordPairOk { address := JVal.jnull, latitude := JVal.jfloat 39,
                 longitude := JVal.jfloat 116,
                 raw := JVal.jobj [("location",
                   JVal.jobj [("lat", JVal.jfloat 39),
                              ("lng", JVal.jfloat 116)])] }) ∧
  (BaiduV2.parse_json (JVal.jobj [("status", JVal.jint 0),
      ("results", JVal.jlist [JVal.jint 1]), ("level", JVal.jstr "district"),
      ("location", JVal.jobj [("lat", JVal.jfloat 39),
                              ("lng", JVal.jfloat 116)])]) true
    = Except.ok (some { address := JVal.jstr "district",
                        latitude := JVal.jfloat 39,
                        longitude := JVal.jfloat 116,
                        raw := JVal.jobj [("status", JVal.jint 0),
                          ("results", JVal.jlist [JVal.jint 1]),
                          ("level", JVal.jstr "district"),
                          ("location", JVal.jobj [("lat", JVal.jfloat 39),
                            ("lng", JVal.jfloat 116)])] }) ∧
   coordPairOk { address := JVal.jstr "district",
                 latitude := JVal.jfloat 39, longitude := JVal.jfloat 116,
                 raw := JVal.jobj [("status", JVal.jint 0),
                   ("results", JVal.jlist [JVal.jint 1]),
                   ("level", JVal.jstr "district"),
                   ("location", JVal.jobj [("lat", JVal.jfloat 39),
                     ("lng", JVal.jfloat 116)])] }) :=
⟨⟨rfl,
  (baidu_parse_json_coord_pair_shape
    (JVal.jobj [("status", JVal.jstr "OK"),
      ("result", JVal.jobj [("location",
        JVal.jobj [("lat", JVal.jfloat 39), ("lng", JVal.jfloat 116)])])])
    true
    { address := JVal.jnull, latitude := JVal.jfloat 39,
      longitude := JVal.jfloat 116,
      raw := JVal.jobj [("location",
        JVal.jobj [("lat", JVal.jfloat 39),
                   ("lng", JVal.jfloat 116)])] }).1 rfl⟩,
 ⟨rfl,
  (baidu_parse_json_coord_pair_shape
    (JVal.jobj [("status", JVal.jint 0),
      ("results", JVal.jlist [JVal.jint 1]), ("level", JVal.jstr "district"),
      ("location", JVal.jobj [("lat", JVal.jfloat 39),
                              ("lng", JVal.jfloat 116)])])
    true
    { address := JVal.jstr "district", latitude := JVal.jfloat 39,
      longitude := JVal.jfloat 116,
      raw := JVal.jobj [("status", JVal.jint 0),
        ("results", JVal.jlist [JVal.jint 1]),
        ("level", JVal.jstr "district"),
        ("location", JVal.jobj [("lat", JVal.jfloat 39),
          ("lng", JVal.jfloat 116)])] }).2 rfl⟩⟩

/-- C2 (code bug): on the documented V2 response shape
`{status, results: [{level, location: {lat, lng}}]}` with a non-empty
`results` list, `_parse_json` hands the whole response — not the first
entry of `results` — to `parse_result`, whose `result['level']` lookup
then raises `KeyError('level')` instead of returning a Result labelled by
the first entry's `level`. -/
theorem baiduV2_parse_json_nonempty_keyerror_level :
  BaiduV2.parse_json (JVal.jobj [("status", JVal.jint 0),
      ("results", JVal.jlist [JVal.jobj [("level", JVal.jstr "city"),
        ("location", JVal.jobj [("lat", JVal.jint 39),
                                ("lng", JVal.jint 116)])]])]) true
    = Except.error (PyErr.keyError "level") :=
rfl

/-- C7: the `exactly_one` parameter has no influence on the outcome of
`_parse_json`, `geocode` or `reverse` in either version. -/
theorem baidu_exactly_one_no_influence :
  ∀ (resp : JVal) (b b' : Bool),
    BaiduV1.parse_json resp b = BaiduV1.parse_json resp b' ∧
    BaiduV2.parse_json resp b = BaiduV2.parse_json resp b' ∧
    (∀ (g1 : BaiduV1) (g2 : BaiduV2) (enc : List (String × String) → String)
       (tr : String → Option Nat → Except PyErr JVal) (q : String)
       (c : Option String) (t : Option Nat),
       BaiduV1.geocode g1 enc tr q c b t = BaiduV1.geocode g1 enc tr q c b' t ∧
       BaiduV2.geocode g2 enc tr q c b t = BaiduV2.geocode g2 enc tr q c b' t) ∧
    (∀ (α : Type) (g1 : BaiduV1) (g2 : BaiduV2)
       (enc : List (String × String) → String)
       (tr : String → Option Nat → Except PyErr JVal) (coerce : α → String)
       (q : α) (ct : String) (t : Option Nat),
       BaiduV1.reverse g1 enc tr coerce q b t
         = BaiduV1.reverse g1 enc tr coerce q b' t ∧
       BaiduV2.reverse g2 enc tr coerce q ct b t
         = BaiduV2.reverse g2 enc tr coerce q ct b' t) := by
  intro resp b b'
  refine ⟨rfl, rfl, ?_, ?_⟩
  · intro g1 g2 enc tr q c t
    constructor
    · unfold BaiduV1.geocode
      cases tr (BaiduV1.geocodeUrl enc g1 q c) t <;> rfl
    · unfold BaiduV2.geocode
      cases tr (BaiduV2.geocodeUrl enc g2 q c) t <;> rfl
  · intro α g1 g2 enc tr coerce q ct t
    constructor
    · unfold BaiduV1.reverse
      cases tr (BaiduV1.reverseUrl enc g1 coerce q) t <;> rfl
    · unfold BaiduV2.reverse
      cases tr (BaiduV2.reverseUrl enc g2 coerce q ct) t <;> rfl

/-- C9: on concrete responses whose result collection is non-empty but
which lack an expected inner key, `_parse_json` neither returns `None` nor
raises a `GeocoderQueryError`: it fails with an unhandled `KeyError`. -/
theorem baidu_parse_json_malformed_key_lookup :
  (BaiduV1.parse_json (JVal.jobj [("status", JVal.jstr "OK"),
      ("result", JVal.jobj [("location",
        JVal.jobj [("lat", JVal.jint 39)])])]) true
    = Except.error (PyErr.keyError "lng")) ∧
  (BaiduV1.parse_json (JVal.jobj [("result",
      JVal.jobj [("formatted_address", JVal.jstr "addr")])]) true
    = Except.error (PyErr.keyError "location")) ∧
  (BaiduV2.parse_json (JVal.jobj [("results",
      JVal.jlist [JVal.jobj [("location",
        JVal.jobj [("lat", JVal.jint 39), ("lng", JVal.jint 116)])]]),
      ("status", JVal.jint 0)]) true
    = Except.error (PyErr.keyError "level")) ∧
  PyErr.isQueryError (PyErr.keyError "lng") = false ∧
  PyErr.isQueryError (PyErr.keyError "location") = false ∧
  PyErr.isQueryError (PyErr.keyError "level") = false :=
⟨rfl, rfl, rfl, rfl, rfl, rfl⟩

/-- C10: a falsy `city` argument — the empty string — is omitted from the
geocode parameters of both versions even though it was explicitly
provided: inclusion is decided by truthiness. -/
theorem baidu_geocode_falsy_city_omitted :
  ∀ (g1 : BaiduV1) (g2 : BaiduV2) (q c : String),
    pyStrTruthy c = false →
    (BaiduV1.geocodeParams g1 q (some c) = BaiduV1.geocodeParams g1 q none ∧
     (BaiduV1.geocodeParams g1 q (some c)).lookup "city" = none ∧
     BaiduV2.geocodeParams g2 q (some c) = BaiduV2.geocodeParams g2 q none ∧
     (BaiduV2.geocodeParams g2 q (some c)).lookup "city" = none) := by
  intro g1 g2 q c h
  refine ⟨?_, ?_, ?_, ?_⟩ <;>
    simp [BaiduV1.geocodeParams, BaiduV2.geocodeParams, h, List.lookup]

/-- C10 witness: the empty string is falsy and is dropped from the V1
parameters. -/
theorem baidu_geocode_falsy_city_omitted_witness :
  pyStrTruthy "" = false ∧
  BaiduV1.geocodeParams sampleV1 "addr" (some "")
    = BaiduV1.geocodeParams sampleV1 "addr" none :=
⟨rfl, (baidu_geocode_falsy_city_omitted sampleV1 sampleV2 "addr" "" rfl).1⟩

/-- C6: `reverse` builds a `location` parameter equal to the coerced
point-like query, alongside `output=json` and the version's credential
parameter; V2 additionally includes `coordtype`, which the source
signature defaults to `"bd09ll"`. -/
theorem baidu_reverse_request_construction :
  ∀ (α : Type) (coerce : α → String) (q : α) (g1 : BaiduV1) (g2 : BaiduV2)
    (ct : String),
    BaiduV1.reverseParams g1 coerce q
      = [("location", coerce q), ("output", "json"), ("key", g1.key)] ∧
    BaiduV2.reverseParams g2 coerce q ct
      = [("location", coerce q), ("coordtype", ct), ("output", "json"),
         ("ak", g2.ak)] ∧
    BaiduV2.reverseParamsDefault g2 coerce q
      = BaiduV2.reverseParams g2 coerce q "bd09ll" ∧
    (BaiduV2.reverseParamsDefault g2 coerce q).lookup "coordtype"
      = some "bd09ll" ∧
    (BaiduV1.reverseParams g1 coerce q).lookup "location" = some (coerce q) ∧
    (BaiduV2.reverseParamsDefault g2 coerce q).lookup "location"
      = some (coerce q) :=
fun α coerce q g1 g2 ct => ⟨rfl, rfl, rfl, rfl, rfl, rfl⟩

/-- When the `result` collection is empty, `BaiduV1._parse_json` reduces
to status validation on `response.get('status')`. -/
theorem parse_json_empty_v1 (fs : List (String × JVal)) (b : Bool)
    (h : pyLen ((fs.lookup "result").getD (JVal.jlist [])) = Except.ok 0) :
    BaiduV1.parse_json (JVal.jobj fs) b =
      match BaiduV1.check_status ((fs.lookup "status").getD JVal.jnull) with
      | Except.error e => Except.error e
      | Except.ok _ => Except.ok none := by
  unfold BaiduV1.parse_json
  simp [pyGet, h]

/-- When the `result` collection is non-empty, `BaiduV1._parse_json`
reduces to `parse_result` applied to the whole response — status
validation is not reached. -/
theorem parse_json_nonempty_v1 (fs : List (String × JVal)) (b : Bool)
    (n : Nat)
    (h : pyLen ((fs.lookup "result").getD (JVal.jlist [])) = Except.ok n)
    (hn : n ≠ 0) :
    BaiduV1.parse_json (JVal.jobj fs) b = BaiduV1.parse_result (JVal.jobj fs) := by
  unfold BaiduV1.parse_json
  simp [pyGet, h, hn]

/-- When the `results` collection is empty, `BaiduV2._parse_json` reduces
to status validation on `response.get('status')`. -/
theorem parse_json_empty_v2 (fs : List (String × JVal)) (b : Bool)
    (h : pyLen ((fs.lookup "results").getD (JVal.jlist [])) = Except.ok 0) :
    BaiduV2.parse_json (JVal.jobj fs) b =
      match BaiduV2.check_status ((fs.lookup "status").getD JVal.jnull) with
      | Except.error e => Except.error e
      | Except.ok _ => Except.ok none := by
  unfold BaiduV2.parse_json
  simp [pyGet, h]

/-- When the `results` collection is non-empty, `BaiduV2._parse_json`
reduces to `parse_result` applied to the whole response. -/
theorem parse_json_nonempty_v2 (fs : List (String × JVal)) (b : Bool)
    (n : Nat)
    (h : pyLen ((fs.lookup "results").getD (JVal.jlist [])) = Except.ok n)
    (hn : n ≠ 0) :
    BaiduV2.parse_json (JVal.jobj fs) b = BaiduV2.parse_result (JVal.jobj fs) := by
  unfold BaiduV2.parse_json
  simp [pyGet, h, hn]

/-- C3: on a V1 response whose `result` collection is empty, `_parse_json`
validates the status: `"OK"` returns `None` silently, numeric `1` raises
for a server internal error, `"INVILID_KEY"` raises with message
`"Invalid key."`, `"INVALID_PARAMETERS"` raises for invalid parameters,
and any other status raises an unknown-error `GeocoderQueryError`; when
the collection is non-empty, parsing proceeds without status
validation. -/
theorem baiduV1_empty_result_status_validation :
  (∀ (fs : List (String × JVal)) (b : Bool) (st : JVal),
    pyLen ((fs.lookup "result").getD (JVal.jlist [])) = Except.ok 0 →
    (fs.lookup "status").getD JVal.jnull = st →
    ((st = JVal.jstr "OK" →
        BaiduV1.parse_json (JVal.jobj fs) b = Except.ok none) ∧
     (st = JVal.jint 1 →
        BaiduV1.parse_json (JVal.jobj fs) b
          = Except.error (PyErr.geocoderQueryError "Server internal error.")) ∧
     (st = JVal.jstr "INVILID_KEY" →
        BaiduV1.parse_json (JVal.jobj fs) b
          = Except.error (PyErr.geocoderQueryError "Invalid key.")) ∧
     (st = JVal.jstr "INVALID_PARAMETERS" →
        BaiduV1.parse_json (JVal.jobj fs) b
          = Except.error (PyErr.geocoderQueryError "INVALID PARAMETERS.")) ∧
     (pyEq st (JVal.jstr "OK") = false → pyEq st (JVal.jint 1) = false →
      pyEq st (JVal.jstr "INVILID_KEY") = false →
      pyEq st (JVal.jstr "INVALID_PARAMETERS") = false →
        BaiduV1.parse_json (JVal.jobj fs) b
          = Except.error (PyErr.geocoderQueryError "Unknown error.")))) ∧
  (∀ (fs : List (String × JVal)) (b : Bool) (n : Nat),
    pyLen ((fs.lookup "result").getD (JVal.jlist [])) = Except.ok n →
    n ≠ 0 →
    BaiduV1.parse_json (JVal.jobj fs) b = BaiduV1.parse_result (JVal.jobj fs)) := by
  constructor
  · intro fs b st hlen hst
    have hred := parse_json_empty_v1 fs b hlen
    rw [hst] at hred
    refine ⟨?_, ?_, ?_, ?_, ?_⟩
    · intro h
      subst h
      rw [hred]
      rfl
    · intro h
      subst h
      rw [hred]
      rfl
    · intro h
      subst h
      rw [hred]
      rfl
    · intro h
      subst h
      rw [hred]
      rfl
    · intro h1 h2 h3 h4
      rw [hred]
      simp [BaiduV1.check_status, h1, h2, h3, h4]
  · intro fs b n hlen hn
    exact parse_json_nonempty_v1 fs b n hlen hn

/-- C3 witness: each status branch exercised on a concrete empty-result
V1 response, plus a concrete non-empty response bypassing validation. -/
theorem baiduV1_empty_result_status_validation_witness :
  (BaiduV1.parse_json (JVal.jobj [("status", JVal.jstr "OK")]) true
    = Except.ok none) ∧
  (BaiduV1.parse_json (JVal.jobj [("status", JVal.jint 1)]) true
    = Except.error (PyErr.geocoderQueryError "Server internal error.")) ∧
  (BaiduV1.parse_json (JVal.jobj [("status", JVal.jstr "INVILID_KEY")]) true
    = Except.error (PyErr.geocoderQueryError "Invalid key.")) ∧
  (BaiduV1.parse_json (JVal.jobj [("status", JVal.jstr "INVALID_PARAMETERS")])
      true
    = Except.error (PyErr.geocoderQueryError "INVALID PARAMETERS.")) ∧
  (BaiduV1.parse_json (JVal.jobj [("status", JVal.jstr "GIBBERISH")]) true
    = Except.error (PyErr.geocoderQueryError "Unknown error.")) ∧
  (BaiduV1.parse_json (JVal.jobj [("status", JVal.jstr "INVILID_KEY"),
      ("result", JVal.jobj [("location",
        JVal.jobj [("lat", JVal.jint 1), ("lng", JVal.jint 2)])])]) true
    = BaiduV1.parse_result (JVal.jobj [("status", JVal.jstr "INVILID_KEY"),
        ("result", JVal.jobj [("location",
          JVal.jobj [("lat", JVal.jint 1), ("lng", JVal.jint 2)])])])) :=
⟨((baiduV1_empty_result_status_validation.1 [("status", JVal.jstr "OK")]
    true (JVal.jstr "OK") rfl rfl).1) rfl,
 ((baiduV1_empty_result_status_validation.1 [("status", JVal.jint 1)]
    true (JVal.jint 1) rfl rfl).2.1) rfl,
 ((baiduV1_empty_result_status_validation.1
    [("status", JVal.jstr "INVILID_KEY")] true (JVal.jstr "INVILID_KEY")
    rfl rfl).2.2.1) rfl,
 ((baiduV1_empty_result_status_validation.1
    [("status", JVal.jstr "INVALID_PARAMETERS")] true
    (JVal.jstr "INVALID_PARAMETERS") rfl rfl).2.2.2.1) rfl,
 ((baiduV1_empty_result_status_validation.1
    [("status", JVal.jstr "GIBBERISH")] true (JVal.jstr "GIBBERISH")
    rfl rfl).2.2.2.2) rfl rfl rfl rfl,
 baiduV1_empty_result_status_validation.2
   [("status", JVal.jstr "INVILID_KEY"),
    ("result", JVal.jobj [("location",
      JVal.jobj [("lat", JVal.jint 1), ("lng", JVal.jint 2)])])] true 1
   rfl (by decide)⟩

/-- C4: on a V2 response whose `results` collection is empty,
`_parse_json` validates the numeric status: `0` returns `None` silently,
`1` raises internal error, `2` invalid request, `3` permission failure,
`4` quota failure, `5` invalid credential, `101` service disabled, `102`
whitelist/security-code failure, and any other value raises an
unknown-error `GeocoderQueryError`. -/
theorem baiduV2_empty_results_status_validation :
  ∀ (fs : List (String × JVal)) (b : Bool) (st : JVal),
    pyLen ((fs.lookup "results").getD (JVal.jlist [])) = Except.ok 0 →
    (fs.lookup "status").getD JVal.jnull = st →
    ((st = JVal.jint 0 →
        BaiduV2.parse_json (JVal.jobj fs) b = Except.ok none) ∧
     (st = JVal.jint 1 →
        BaiduV2.parse_json (JVal.jobj fs) b
          = Except.error (PyErr.geocoderQueryError "Server internal error.")) ∧
     (st = JVal.jint 2 →
        BaiduV2.parse_json (JVal.jobj fs) b
          = Except.error (PyErr.geocoderQueryError "Invalid request.")) ∧
     (st = JVal.jint 3 →
        BaiduV2.parse_json (JVal.jobj fs) b
          = Except.error
              (PyErr.geocoderQueryError "Permission validation failed.")) ∧
     (st = JVal.jint 4 →
        BaiduV2.parse_json (JVal.jobj fs) b
          = Except.error
              (PyErr.geocoderQueryError "Quota validation failed.")) ∧
     (st = JVal.jint 5 →
        BaiduV2.parse_json (JVal.jobj fs) b
          = Except.error (PyErr.geocoderQueryError "Invalid ak.")) ∧
     (st = JVal.jint 101 →
        BaiduV2.parse_json (JVal.jobj fs) b
          = Except.error (PyErr.geocoderQueryError "Service disabled.")) ∧
     (st = JVal.jint 102 →
        BaiduV2.parse_json (JVal.jobj fs) b
          = Except.error (PyErr.geocoderQueryError
              "Failed to pass the whitelist or wrong security code.")) ∧
     (pyEq st (JVal.jint 0) = false → pyEq st (JVal.jint 1) = false →
      pyEq st (JVal.jint 2) = false → pyEq st (JVal.jint 3) = false →
      pyEq st (JVal.jint 4) = false → pyEq st (JVal.jint 5) = false →
      pyEq st (JVal.jint 101) = false → pyEq st (JVal.jint 102) = false →
        BaiduV2.parse_json (JVal.jobj fs) b
          = Except.error (PyErr.geocoderQueryError "Unknown error."))) := by
  intro fs b st hlen hst
  have hred := parse_json_empty_v2 fs b hlen
  rw [hst] at hred
  refine ⟨?_, ?_, ?_, ?_, ?_, ?_, ?_, ?_, ?_⟩
  · intro h
    subst h
    rw [hred]
    rfl
  · intro h
    subst h
    rw [hred]
    rfl
  · intro h
    subst h
    rw [hred]
    rfl
  · intro h
    subst h
    rw [hred]
    rfl
  · intro h
    subst h
    rw [hred]
    rfl
  · intro h
    subst h
    rw [hred]
    rfl
  · intro h
    subst h
    rw [hred]
    rfl
  · intro h
    subst h
    rw [hred]
    rfl
  · intro h1 h2 h3 h4 h5 h6 h7 h8
    rw [hred]
    simp [BaiduV2.check_status, h1, h2, h3, h4, h5, h6, h7, h8]

/-- C4 witness: each numeric status branch exercised on a concrete
empty-results V2 response, including the unmapped value `999`. -/
theorem baiduV2_empty_results_status_validation_witness :
  (BaiduV2.parse_json (JVal.jobj [("status", JVal.jint 0)]) true
    = Except.ok none) ∧
  (BaiduV2.parse_json (JVal.jobj [("status", JVal.jint 1)]) true
    = Except.error (PyErr.geocoderQueryError "Server internal error.")) ∧
  (BaiduV2.parse_json (JVal.jobj [("status", JVal.jint 2)]) true
    = Except.error (PyErr.geocoderQueryError "Invalid request.")) ∧
  (BaiduV2.parse_json (JVal.jobj [("status", JVal.jint 3)]) true
    = Except.error (PyErr.geocoderQueryError "Permission validation failed.")) ∧
  (BaiduV2.parse_json (JVal.jobj [("status", JVal.jint 4)]) true
    = Except.error (PyErr.geocoderQueryError "Quota validation failed.")) ∧
  (BaiduV2.parse_json (JVal.jobj [("status", JVal.jint 5)]) true
    = Except.error (PyErr.geocoderQueryError "Invalid ak.")) ∧
  (BaiduV2.parse_json (JVal.jobj [("status", JVal.jint 101)]) true
    = Except.error (PyErr.geocoderQueryError "Service disabled.")) ∧
  (BaiduV2.parse_json (JVal.jobj [("status", JVal.jint 102)]) true
    = Except.error (PyErr.geocoderQueryError
        "Failed to pass the whitelist or wrong security code.")) ∧
  (BaiduV2.parse_json (JVal.jobj [("status", JVal.jint 999)]) true
    = Except.error (PyErr.geocoderQueryError "Unknown error.")) :=
⟨((baiduV2_empty_results_status_validation [("status", JVal.jint 0)] true
    (JVal.jint 0) rfl rfl).1) rfl,
 ((baiduV2_empty_results_status_validation [("status", JVal.jint 1)] true
    (JVal.jint 1) rfl rfl).2.1) rfl,
 ((baiduV2_empty_results_status_validation [("status", JVal.jint 2)] true
    (JVal.jint 2) rfl rfl).2.2.1) rfl,
 ((baiduV2_empty_results_status_validation [("status", JVal.jint 3)] true
    (JVal.jint 3) rfl rfl).2.2.2.1) rfl,
 ((baiduV2_empty_results_status_validation [("status", JVal.jint 4)] true
    (JVal.jint 4) rfl rfl).2.2.2.2.1) rfl,
 ((baiduV2_empty_results_status_validation [("status", JVal.jint 5)] true
    (JVal.jint 5) rfl rfl).2.2.2.2.2.1) rfl,
 ((baiduV2_empty_results_status_validation [("status", JVal.jint 101)] true
    (JVal.jint 101) rfl rfl).2.2.2.2.2.2.1) rfl,
 ((baiduV2_empty_results_status_validation [("status", JVal.jint 102)] true
    (JVal.jint 102) rfl rfl).2.2.2.2.2.2.2.1) rfl,
 ((baiduV2_empty_results_status_validation [("status", JVal.jint 999)] true
    (JVal.jint 999) rfl rfl).2.2.2.2.2.2.2.2) (by decide) (by decide)
   (by decide) (by decide) (by decide) (by decide) (by decide) (by decide)⟩

/-- C5: `geocode` builds exactly the parameters `address` (template
applied to the query), `output=json`, and the version's credential
parameter (`key` for V1, `ak` for V2), plus `city` only when provided and
truthy, and sends them URL-encoded appended to the version's endpoint
(`/geocoder` for V1, `/geocoder/v2/` for V2). -/
theorem baidu_geocode_request_construction :
  ∀ (g1 : BaiduV1) (g2 : BaiduV2) (q : String)
    (enc : List (String × String) → String),
    (BaiduV1.geocodeParams g1 q none
      = [("address", g1.format_string q), ("output", "json"),
         ("key", g1.key)]) ∧
    (∀ c, pyStrTruthy c = true →
      BaiduV1.geocodeParams g1 q (some c)
        = [("address", g1.format_string q), ("output", "json"),
           ("key", g1.key), ("city", c)]) ∧
    (BaiduV1.api g1 = g1.scheme ++ "://api.map.baidu.com/geocoder") ∧
    (∀ city, BaiduV1.geocodeUrl enc g1 q city
        = BaiduV1.api g1 ++ "?" ++ enc (BaiduV1.geocodeParams g1 q city)) ∧
    (∀ (tr : String → Option Nat → Except PyErr JVal) (city : Option String)
       (b : Bool) (t : Option Nat),
      BaiduV1.geocode g1 enc tr q city b t
        = Except.bind (tr (BaiduV1.geocodeUrl enc g1 q city) t)
            (fun resp => BaiduV1.parse_json resp b)) ∧
    (BaiduV2.geocodeParams g2 q none
      = [("address", g2.format_string q), ("output", "json"),
         ("ak", g2.ak)]) ∧
    (∀ c, pyStrTruthy c = true →
      BaiduV2.geocodeParams g2 q (some c)
        = [("address", g2.format_string q), ("output", "json"),
           ("ak", g2.ak), ("city", c)]) ∧
    (BaiduV2.api g2 = g2.scheme ++ "://api.map.baidu.com/geocoder/v2/") ∧
    (∀ city, BaiduV2.geocodeUrl enc g2 q city
        = BaiduV2.api g2 ++ "?" ++ enc (BaiduV2.geocodeParams g2 q city)) ∧
    (∀ (tr : String → Option Nat → Except PyErr JVal) (city : Option String)
       (b : Bool) (t : Option Nat),
      BaiduV2.geocode g2 enc tr q city b t
        = Except.bind (tr (BaiduV2.geocodeUrl enc g2 q city) t)
            (fun resp => BaiduV2.parse_json resp b)) := by
  intro g1 g2 q enc
  refine ⟨rfl, ?_, rfl, ?_, ?_, rfl, ?_, rfl, ?_, ?_⟩
  · intro c h
    simp [BaiduV1.geocodeParams, h]
  · intro city
    rfl
  · intro tr city b t
    unfold BaiduV1.geocode
    cases tr (BaiduV1.geocodeUrl enc g1 q city) t <;> rfl
  · intro c h
    simp [BaiduV2.geocodeParams, h]
  · intro city
    rfl
  · intro tr city b t
    unfold BaiduV2.geocode
    cases tr (BaiduV2.geocodeUrl enc g2 q city) t <;> rfl

/-- C5 witness: the parameters built for a concrete query and truthy city
on concrete configurations of both versions. -/
theorem baidu_geocode_request_construction_witness :
  pyStrTruthy "Beijing" = true ∧
  BaiduV1.geocodeParams sampleV1 "addr" (some "Beijing")
    = [("address", "addr"), ("output", "json"), ("key", "k"),
       ("city", "Beijing")] ∧
  BaiduV2.geocodeParams sampleV2 "addr" (some "Beijing")
    = [("address", "addr"), ("output", "json"), ("ak", "a"),
       ("city", "Beijing")] :=
⟨rfl,
 (baidu_geocode_request_construction sampleV1 sampleV2 "addr"
   sampleEnc).2.1 "Beijing" rfl,
 (baidu_geocode_request_construction sampleV1 sampleV2 "addr"
   sampleEnc).2.2.2.2.2.2.1 "Beijing" rfl⟩

/-- C8: request construction is a deterministic function of the
configuration fields it reads (credential, template, scheme) and the call
arguments: two instances agreeing on those fields — whatever their
timeout and proxy settings — build identical parameter lists and
identical URLs, so repeated calls with identical inputs build identical
requests. -/
theorem baidu_request_determinism :
  ∀ (g g' : BaiduV1) (v v' : BaiduV2),
    g.key = g'.key → g.format_string = g'.format_string →
    g.scheme = g'.scheme →
    v.ak = v'.ak → v.format_string = v'.format_string →
    v.scheme = v'.scheme →
    ∀ (enc : List (String × String) → String) (q : String)
      (c : Option String),
      BaiduV1.geocodeParams g q c = BaiduV1.geocodeParams g' q c ∧
      BaiduV1.geocodeUrl enc g q c = BaiduV1.geocodeUrl enc g' q c ∧
      BaiduV2.geocodeParams v q c = BaiduV2.geocodeParams v' q c ∧
      BaiduV2.geocodeUrl enc v q c = BaiduV2.geocodeUrl enc v' q c := by
  intro g g' v v' h1 h2 h3 h4 h5 h6 enc q c
  have p1 : BaiduV1.geocodeParams g q c = BaiduV1.geocodeParams g' q c := by
    cases c with
    | none => simp [BaiduV1.geocodeParams, h1, h2]
    | some s => simp [BaiduV1.geocodeParams, h1, h2]
  have p2 : BaiduV2.geocodeParams v q c = BaiduV2.geocodeParams v' q c := by
    cases c with
    | none => simp [BaiduV2.geocodeParams, h4, h5]
    | some s => simp [BaiduV2.geocodeParams, h4, h5]
  refine ⟨p1, ?_, p2, ?_⟩
  · unfold BaiduV1.geocodeUrl BaiduV1.api
    rw [h3, p1]
  · unfold BaiduV2.geocodeUrl BaiduV2.api
    rw [h6, p2]

/-- C8 witness: two concrete configurations per version, agreeing on
credential, template and scheme but differing in timeout and proxies,
build the same URL for the same call. -/
theorem baidu_request_determinism_witness :
  BaiduV1.geocodeUrl sampleEnc sampleV1 "addr" (some "Beijing")
    = BaiduV1.geocodeUrl sampleEnc sampleV1b "addr" (some "Beijing") ∧
  BaiduV2.geocodeUrl sampleEnc sampleV2 "addr" (some "Beijing")
    = BaiduV2.geocodeUrl sampleEnc sampleV2b "addr" (some "Beijing") :=
⟨(baidu_request_determinism sampleV1 sampleV1b sampleV2 sampleV2b rfl rfl
    rfl rfl rfl rfl sampleEnc "addr" (some "Beijing")).2.1,
 (baidu_request_determinism sampleV1 sampleV1b sampleV2 sampleV2b rfl rfl
    rfl rfl rfl rfl sampleEnc "addr" (some "Beijing")).2.2.2⟩
